import Mathlib

/-!
Verification of the S3P command line tool's path model and date-resolution
engine (`s3pcmd.py`) against its natural-language specification.

The Python source is shallowly embedded: strings are `String` (manipulated
through structurally recursive functions on `List Char`, so that every
definition evaluates inside the kernel), naive `datetime` values are modelled
as an integer count of seconds on the proleptic Gregorian calendar (the
formats used by the program are second-granular and timezone-naive), and the
storage service collaborator is modelled as a list of objects: `ls` filters
it, `cp` returns the list of server-side copy operations it would issue.
Fallible constructors (`S3Path.__init__` raising `RuntimeError`,
`S3DatePath._parse_params` raising `AttributeError`) return `Except`.
-/

/-! ### Character and list-of-characters helpers -/

/-- The character `{` (written via its code point so that it never appears
as a literal brace). -/
def lbrace : Char := Char.ofNat 123

/-- The character `}`. -/
def rbrace : Char := Char.ofNat 125

/-- Whitespace in the sense of Python's `str.strip()` (ASCII fragment:
space, tab, newline, carriage return, vertical tab, form feed). -/
def pyIsSpace (c : Char) : Bool :=
  c == ' ' || c == '\t' || c == '\n' || c == '\r' || c == Char.ofNat 11 || c == Char.ofNat 12

/-- Python `s.strip()` on a list of characters: remove leading and trailing
whitespace. -/
def pyStrip (cs : List Char) : List Char :=
  ((cs.dropWhile pyIsSpace).reverse.dropWhile pyIsSpace).reverse

/-- Python `s.split("/")`: split on every slash, keeping empty pieces
(`"".split("/") == [""]`, `"/a/".split("/") == ["", "a", ""]`). -/
def splitSlash : List Char → List (List Char)
  | [] => [[]]
  | c :: cs =>
    match splitSlash cs with
    | [] => [[]]
    | seg :: rest => if c == '/' then [] :: seg :: rest else (c :: seg) :: rest

/-- Python `"/".join(lst)` on strings. -/
def joinSlash : List String → String
  | [] => ""
  | [s] => s
  | s :: rest => s ++ "/" ++ joinSlash rest

/-- Collapse every run of slashes to a single slash.  `re.sub(r"\/\/+", "/", s)`
replaces each maximal run of two or more slashes by one slash and leaves
single slashes alone, which is exactly this collapse.  The Boolean argument
records whether the previous emitted character of the current run was a
slash. -/
def collapseAux : Bool → List Char → List Char
  | _, [] => []
  | prev, c :: cs =>
    if c == '/' then
      if prev then collapseAux true cs
      else '/' :: collapseAux true cs
    else c :: collapseAux false cs

/-- Does the list contain two consecutive slashes? -/
def hasDD : List Char → Bool
  | a :: b :: t => (a == '/' && b == '/') || hasDD (b :: t)
  | _ => false

/-- Does the list start with a slash? -/
def headSlash : List Char → Bool
  | [] => false
  | c :: _ => c == '/'

/-- The optional slash `[/]?` of `S3PATH_PATTERN`: greedily consume one
leading slash if present. -/
def slashDrop : List Char → List Char
  | '/' :: t => t
  | t => t

/-- Remove the first list if it is literally at the front of the second,
returning the remainder. -/
def dropPfx : List Char → List Char → Option (List Char)
  | [], cs => some cs
  | _ :: _, [] => none
  | p :: ps, c :: cs => if p == c then dropPfx ps cs else none

/-- Numeric value of a list of ASCII decimal digits, as Python `int` on the
matched `\d+` group (`int("01") == 1`). -/
def digitsToNat (ds : List Char) : Nat :=
  ds.foldl (fun acc c => acc * 10 + (c.toNat - '0'.toNat)) 0

/-- Python substring containment `pat in s`: some position of the list has
`pat` as a prefix (the empty pattern is contained in everything). -/
def containsL (pat : List Char) : List Char → Bool
  | [] => pat.isEmpty
  | c :: cs => pat.isPrefixOf (c :: cs) || containsL pat cs

/-- Helper for Python `str.replace` with an empty pattern: `new` is inserted
before every character (and once at the end by the caller). -/
def interleaveRepl (new : List Char) : List Char → List Char
  | [] => []
  | c :: cs => c :: (new ++ interleaveRepl new cs)

/-- Python `str.replace` main loop: leftmost non-overlapping occurrences of
`pat` (non-empty) are replaced by `repl`.  The fuel is the length of the
input; every step consumes at least one character, so it never runs out. -/
def replaceFuel (pat repl : List Char) : Nat → List Char → List Char
  | 0, cs => cs
  | Nat.succ n, cs =>
    match cs with
    | [] => []
    | c :: cs' =>
      if pat.isPrefixOf cs then repl ++ replaceFuel pat repl n (cs.drop pat.length)
      else c :: replaceFuel pat repl n cs'

/-- Python `s.replace(old, new)`: replace all (leftmost, non-overlapping)
occurrences of `old` in `s` by `new`; when `old` is empty, `new` is inserted
at every position. -/
def pyReplace (s old new : String) : String :=
  if old.data.isEmpty then ⟨new.data ++ interleaveRepl new.data s.data⟩
  else ⟨replaceFuel old.data new.data s.data.length s.data⟩

/-! ### The URI parser and `S3Path`

Python source:
```
S3PATH_PATTERN = re.compile(r"(s3[n]?://)([^/]+)[/]?(.*)")
def __init__(self, uri):
    self.proto = "s3"
    try:
        _, self.bucket, self.path = S3Path.S3PATH_PATTERN.match(uri).groups()
        self.path = S3Path.normalize_path(self.path)
    except:
        raise RuntimeError("Invliad S3 URI: %\x7buri\x7d".format(uri=uri))
```
`re.match` anchors at the start only; `[^/]+` is a greedy non-empty run of
non-slash characters; `[/]?` consumes one optional slash; `(.*)` greedily
matches any characters except a newline, and trailing unmatched input is
allowed. -/

structure S3Path where
  proto : String
  bucket : String
  path : String
deriving DecidableEq, Repr

/-- `S3Path.normalize_path`: `re.sub(r"\/\/+", "/", uri)`. -/
def S3Path.normalize_path (uri : String) : String :=
  ⟨collapseAux false uri.data⟩

/-- The scheme alternation `(s3[n]?://)` of `S3PATH_PATTERN`, applied at the
start of the input: strip `s3://` or `s3n://`. -/
def schemeRestL (cs : List Char) : Option (List Char) :=
  match dropPfx "s3://".data cs with
  | some r => some r
  | none =>
    match dropPfx "s3n://".data cs with
    | some r => some r
    | none => none

/-- The bucket-and-path part of `S3PATH_PATTERN` after the scheme:
`([^/]+)` takes the maximal non-empty run of non-slash characters (no match
when that run is empty), `[/]?` eats one slash if present, and `(.*)` takes
the rest of the line (it stops at a newline; the rest of the input is
legally left unmatched by `re.match`). -/
def bucketSplit (rest : List Char) : Option (String × String) :=
  match rest.takeWhile (fun c => !(c == '/')) with
  | [] => none
  | b :: bs =>
    some (⟨b :: bs⟩,
      ⟨(slashDrop (rest.drop (b :: bs).length)).takeWhile (fun c => !(c == '\n'))⟩)

/-- `S3PATH_PATTERN.match(uri)`, returning the bucket and raw-path groups
(the proto group is never used by the code). -/
def s3PathMatchL (cs : List Char) : Option (String × String) :=
  match schemeRestL cs with
  | none => none
  | some rest => bucketSplit rest

/-- `S3Path.S3PATH_PATTERN.match uri` on a `String`. -/
def s3PathMatch (uri : String) : Option (String × String) :=
  s3PathMatchL uri.data

/-- `S3Path.__init__`.  On a failed match the bare `except:` turns the
`AttributeError` into `RuntimeError("Invliad S3 URI: %\x7buri\x7d".format(...))`,
whose message is the literal text `Invliad S3 URI: %` followed by the URI. -/
def S3Path.init (uri : String) : Except String S3Path :=
  match s3PathMatch uri with
  | some (bucket, rawPath) => Except.ok ⟨"s3", bucket, S3Path.normalize_path rawPath⟩
  | none => Except.error ("Invliad S3 URI: %" ++ uri)

/-- `S3Path.__str__`: `"\x7bproto\x7d://\x7bfullpath\x7d"` with
`fullpath = "/".join([bucket, path])`. -/
def S3Path.str (p : S3Path) : String :=
  p.proto ++ "://" ++ joinSlash [p.bucket, p.path]

/-- `S3Path.__eq__`: equal iff `path` and `bucket` match (`proto` is not
compared). -/
def S3Path.eq (a b : S3Path) : Bool :=
  a.path == b.path && a.bucket == b.bucket

/-- `S3Path.is_file`: `not self.path.endswith("/")` (the `lru_cache` is
irrelevant for a pure function of an immutable field). -/
def S3Path.is_file (p : S3Path) : Bool :=
  !(List.isSuffixOf "/".data p.path.data)

/-- `S3Path.is_valid`: `S3Path.S3PATH_PATTERN.match(uri) != None`. -/
def S3Path.is_valid (uri : String) : Bool :=
  (s3PathMatch uri).isSome

/-! ### The storage collaborator model, `ls` and `cp`

The spec (section 6) treats the storage service as a black box exposing
`list(prefix)`, `copy(src, dst)`, `delete(prefix)` and `put(key, bytes)`.
The world is modelled as a list of objects; `S3Path.ls` is the paginated
`list_objects_v2` call (all objects of the bucket whose key starts with the
path, in listing order), and `S3Path.cp` returns the sequence of server-side
copy calls the Python loop issues. -/

structure S3Object where
  bucket : String
  key : String
deriving DecidableEq, Repr

structure CopyOp where
  srcBucket : String
  srcKey : String
  dstBucket : String
  dstKey : String
deriving DecidableEq, Repr

/-- `S3Path.ls`: paginate `list_objects_v2(Bucket=self.bucket, Prefix=self.path)`;
the collaborator yields every object of the bucket whose key has the path as
a prefix, in listing order.  Pagination parameters do not change the yielded
set for worlds smaller than `max_items`, so they are not modelled. -/
def S3Path.ls (p : S3Path) (world : List S3Object) : List S3Object :=
  world.filter (fun obj => obj.bucket == p.bucket && p.path.data.isPrefixOf obj.key.data)

/-- The copy call issued for one listed object:
`new_key = dest_path.path + key.replace(self.path, "")` and
`dest_path.s3_bucket.copy(\x7bBucket: self.bucket, Key: key\x7d, Key=new_key)`. -/
def mkCopyOp (src dest_path : S3Path) (obj : S3Object) : CopyOp :=
  ⟨src.bucket, obj.key, dest_path.bucket, dest_path.path ++ pyReplace obj.key src.path ""⟩

/-- The `for obj in self.ls():` loop of `S3Path.cp`: objects whose key ends
with some excluded postfix string are skipped (`continue`); every other
object produces one copy call. -/
def S3Path.cpLoop (src dest_path : S3Path) (excludes : List String) : List S3Object → List CopyOp
  | [] => []
  | obj :: rest =>
    if excludes.any (fun excluded => List.isSuffixOf excluded.data obj.key.data) then
      S3Path.cpLoop src dest_path excludes rest
    else
      mkCopyOp src dest_path obj :: S3Path.cpLoop src dest_path excludes rest

/-- `S3Path.cp(dest_path, excludes)`; the Python default for `excludes` is
`["_SUCCESS"]` (see `S3Path.cpDefaultExcludes`). -/
def S3Path.cp (src dest_path : S3Path) (excludes : List String) (world : List S3Object) : List CopyOp :=
  S3Path.cpLoop src dest_path excludes (src.ls world)

/-- The default argument `excludes = ["_SUCCESS"]` of `S3Path.cp`. -/
def S3Path.cpDefaultExcludes : List String := ["_SUCCESS"]

/-- `S3BotoClient.cp(s3_src_uri, s3_dst_uri)`: validate both URIs, construct
both paths, and do nothing when the two paths are equal (`!=` is the negation
of `S3Path.__eq__`).  Construction cannot fail once `is_valid` holds, so the
remaining match arm is unreachable.  The returned list is the sequence of
copy calls issued; an empty list means the storage state is untouched. -/
def S3BotoClient.cp (s3_src_uri s3_dst_uri : String) (world : List S3Object) :
    Except String (List CopyOp) :=
  if S3Path.is_valid s3_src_uri && S3Path.is_valid s3_dst_uri then
    match S3Path.init s3_src_uri, S3Path.init s3_dst_uri with
    | Except.ok s3_src_path, Except.ok s3_dst_path =>
      if !(S3Path.eq s3_src_path s3_dst_path) then
        Except.ok (S3Path.cp s3_src_path s3_dst_path S3Path.cpDefaultExcludes world)
      else
        Except.ok []
    | _, _ => Except.error "unreachable"
  else
    Except.error ("URI: " ++ s3_src_uri ++ " or " ++ s3_dst_uri ++ " is invalid format")

/-! ### Dates

Python `datetime` values are timezone-naive; the program only ever formats
whole seconds (`%Y-%m-%d` and `%Y-%m-%d_%H-%M-%S`) and shifts by whole days
(`timedelta(days=v)` is exactly `v * 86400` seconds), so a timestamp is
modelled as an integer count of seconds from the epoch 1970-01-01T00:00:00
on the proleptic Gregorian calendar.  The civil-calendar conversions are the
standard era-based algorithms. -/

/-- Days-from-epoch to `(year, month, day)` on the proleptic Gregorian
calendar. -/
def civilFromDays (z0 : Int) : Int × Nat × Nat :=
  let z : Int := z0 + 719468
  let era : Int := z.fdiv 146097
  let doe : Nat := (z - era * 146097).toNat
  let yoe : Nat := (doe - doe / 1460 + doe / 36524 - doe / 146096) / 365
  let y : Int := (yoe : Int) + era * 400
  let doy : Nat := doe - (365 * yoe + yoe / 4 - yoe / 100)
  let mp : Nat := (5 * doy + 2) / 153
  let d : Nat := doy - (153 * mp + 2) / 5 + 1
  let m : Nat := if mp < 10 then mp + 3 else mp - 9
  (if m ≤ 2 then y + 1 else y, m, d)

/-- `(year, month, day)` to days from the epoch; inverse of `civilFromDays`. -/
def daysFromCivil (y0 : Int) (m d : Nat) : Int :=
  let y : Int := if m ≤ 2 then y0 - 1 else y0
  let era : Int := y.fdiv 400
  let yoe : Nat := (y - era * 400).toNat
  let doy : Nat := (153 * (if 2 < m then m - 3 else m + 9) + 2) / 5 + d - 1
  let doe : Nat := yoe * 365 + yoe / 4 - yoe / 100 + doy
  era * 146097 + (doe : Int) - 719468

/-- Build the model of `datetime(y, m, d, hh, mi, ss)`. -/
def mkDT (y : Int) (m d hh mi ss : Nat) : Int :=
  daysFromCivil y m d * 86400 + ((hh * 3600 + mi * 60 + ss : Nat) : Int)

/-- Zero-padded two-digit field, as `strftime`'s `%m`/`%d`/`%H`/`%M`/`%S`. -/
def pad2 (n : Nat) : String :=
  if n < 10 then "0" ++ toString n else toString n

/-- Zero-padded four-digit year, as `strftime`'s `%Y` for the years a
`datetime` can hold. -/
def padYear (y : Int) : String :=
  if y < 0 then "-" ++ toString (-y).toNat
  else if y.toNat < 10 then "000" ++ toString y.toNat
  else if y.toNat < 100 then "00" ++ toString y.toNat
  else if y.toNat < 1000 then "0" ++ toString y.toNat
  else toString y.toNat

/-- `ts.strftime(S3DatePath.DATE_STR)` with `DATE_STR = "%Y-%m-%d"`. -/
def strftimeDate (ts : Int) : String :=
  let c := civilFromDays (ts.fdiv 86400)
  padYear c.1 ++ "-" ++ pad2 c.2.1 ++ "-" ++ pad2 c.2.2

/-- `ts.strftime(S3DatePath.DATETIME_STR)` with
`DATETIME_STR = "%Y-%m-%d_%H-%M-%S"`. -/
def strftimeDateTime (ts : Int) : String :=
  let sod : Nat := (ts.emod 86400).toNat
  strftimeDate ts ++ "_" ++ pad2 (sod / 3600) ++ "-" ++ pad2 (sod % 3600 / 60) ++ "-" ++ pad2 (sod % 60)

example : strftimeDate (mkDT 2017 11 28 23 55 59) = "2017-11-28" := by rfl
example : strftimeDateTime (mkDT 2017 11 28 23 55 59) = "2017-11-28_23-55-59" := by rfl
example : strftimeDate (mkDT 2017 11 28 23 55 59 - 86400) = "2017-11-27" := by rfl
example : strftimeDate (mkDT 2017 12 31 10 0 0 + 86400) = "2018-01-01" := by rfl
example : strftimeDate (mkDT 2016 2 28 0 0 0 + 86400) = "2016-02-29" := by rfl
example : strftimeDate (mkDT 1970 1 1 0 0 0) = "1970-01-01" := by rfl

/-! ### `S3DatePath` -/

inductive DateType where
  | DATEID
  | DATETIMEID
deriving DecidableEq, BEq, Repr

/-- The `.name` of the enum member, as used by
`_reconstruct_match_token` (`param.dt.name`). -/
def DateType.name : DateType → String
  | .DATEID => "DATEID"
  | .DATETIMEID => "DATETIMEID"

inductive DateOp where
  | NONE
  | PLUS
  | MINUS
deriving DecidableEq, BEq, Repr

/-- `DateOp.from_str`: `"+"` gives `PLUS`, `"-"` gives `MINUS`, anything
else (including the absent group) gives `NONE`. -/
def DateOp.from_str (label : String) : DateOp :=
  if label == "+" then DateOp.PLUS
  else if label == "-" then DateOp.MINUS
  else DateOp.NONE

/-- `S3DateParam = NamedTuple(idx, dt, sign, value)` with `value`
defaulting to 0. -/
structure S3DateParam where
  idx : Nat
  dt : DateType
  sign : DateOp
  value : Nat
deriving DecidableEq, Repr

/-- `S3DateValue = NamedTuple(idx, token, value)`. -/
structure S3DateValue where
  idx : Nat
  token : String
  value : String
deriving DecidableEq, Repr

/-- Match the token sub-pattern `\x7b(DATE(TIME)?ID)(([-+])(\d+))?\x7d` of
`PARAM_PATTERN` at the very start of the list: an opening brace, the kind
(greedy, so `DATETIMEID` before `DATEID`), then either a closing brace (sign
group absent: `NONE`, value 0) or a sign and a non-empty greedy run of
digits followed by a closing brace. -/
def tokenAt (cs : List Char) : Option (DateType × DateOp × Nat) :=
  match cs with
  | [] => none
  | c :: rest =>
    if c == lbrace then
      let kindRest : Option (DateType × List Char) :=
        match dropPfx "DATETIMEID".data rest with
        | some r => some (DateType.DATETIMEID, r)
        | none =>
          match dropPfx "DATEID".data rest with
          | some r => some (DateType.DATEID, r)
          | none => none
      match kindRest with
      | none => none
      | some (k, r) =>
        match r with
        | [] => none
        | c2 :: r2 =>
          if c2 == rbrace then some (k, DateOp.NONE, 0)
          else if c2 == '+' || c2 == '-' then
            let ds := r2.takeWhile Char.isDigit
            match r2.dropWhile Char.isDigit with
            | c3 :: _ =>
              if !ds.isEmpty && c3 == rbrace then
                some (k, DateOp.from_str ⟨[c2]⟩, digitsToNat ds)
              else none
            | [] => none
          else none
    else none

/-- `PARAM_PATTERN.match(val)`: the pattern is `.*` then the token then `.*`,
with a greedy leading `.*`, so the match that succeeds uses the rightmost
position at which the token sub-pattern matches.  (Segments never contain a
newline because the URI parser's `(.*)` group already stops at one, so the
`.*` of `PARAM_PATTERN` never fails for that reason.) -/
def findToken : List Char → Option (DateType × DateOp × Nat)
  | [] => none
  | c :: cs =>
    match findToken cs with
    | some r => some r
    | none => tokenAt (c :: cs)

/-- The heuristic guard of `_parse_params`:
`("\x7bDATEID" in val or "\x7bDATETIMEID" in val) and "\x7d" in val`. -/
def segHeuristic (val : String) : Bool :=
  (containsL "\x7bDATEID".data val.data || containsL "\x7bDATETIMEID".data val.data)
    && containsL "\x7d".data val.data

/-- `S3DatePath._parse_params`, enumerating the segments from index `idx`.
When the heuristic passes but `PARAM_PATTERN` does not match, Python
evaluates `None.groups()` and the constructor escapes with an
`AttributeError`; that failure is the `Except.error`. -/
def parseParamsAux : Nat → List String → Except String (List S3DateParam)
  | _, [] => Except.ok []
  | idx, val :: rest =>
    if segHeuristic val then
      match findToken val.data with
      | some (dtype, sign, value) => do
        let params ← parseParamsAux (idx + 1) rest
        Except.ok (⟨idx, dtype, sign, value⟩ :: params)
      | none => Except.error "AttributeError"
    else parseParamsAux (idx + 1) rest

/-- `S3DatePath`: an `S3Path` plus the segment list `_path_lst` (which
`resolve_dateid` writes into) and the placeholder list `_params`. -/
structure S3DatePath where
  proto : String
  bucket : String
  path : String
  path_lst : List String
  params : List S3DateParam
deriving DecidableEq, Repr

/-- `S3DatePath.__init__`: run the `S3Path` constructor, then
`self._path_lst = [p for p in self.path.split("/") if p.strip() != ""]` and
`self._params = self._parse_params(self._path_lst)`. -/
def S3DatePath.init (uri : String) : Except String S3DatePath := do
  let p ← S3Path.init uri
  let path_lst : List String :=
    ((splitSlash p.path.data).filter (fun seg => !(pyStrip seg).isEmpty)).map (fun seg => ⟨seg⟩)
  let params ← parseParamsAux 0 path_lst
  Except.ok ⟨p.proto, p.bucket, p.path, path_lst, params⟩

/-- `S3DatePath._compute_offset`: `td = timedelta(days=value)`, i.e. exactly
`86400 * value` seconds, subtracted for `MINUS` and added otherwise. -/
def S3DatePath.compute_offset (dt : Int) (op : DateOp) (value : Nat) : Int :=
  let td : Int := 86400 * (value : Int)
  if op == DateOp.MINUS then dt - td else dt + td

/-- `S3DatePath._reconstruct_match_token`: `param.dt.name`, then for `PLUS`
or `MINUS` the sign character and `str(param.value)`, wrapped in braces. -/
def S3DatePath.reconstruct_match_token (param : S3DateParam) : String :=
  let lst : List String :=
    if param.sign == DateOp.PLUS || param.sign == DateOp.MINUS then
      [param.dt.name, if param.sign == DateOp.PLUS then "+" else "-", toString param.value]
    else [param.dt.name]
  "\x7b" ++ String.join lst ++ "\x7d"

/-- `S3DatePath._extract_value`: the effective timestamp (unchanged for
`NONE`, offset otherwise), formatted with `DATE_STR` for `DATEID` and
`DATETIME_STR` for `DATETIMEID`, together with the reconstructed token. -/
def S3DatePath.extract_value (param : S3DateParam) (dt : Int) : S3DateValue :=
  let ts : Int :=
    if param.sign == DateOp.NONE then dt
    else S3DatePath.compute_offset dt param.sign param.value
  let ts_str : String :=
    if param.dt == DateType.DATEID then strftimeDate ts else strftimeDateTime ts
  ⟨param.idx, S3DatePath.reconstruct_match_token param, ts_str⟩

/-- `S3DatePath.resolve_dateid`: build the resolved values, then overwrite
`self._path_lst[el.idx]` with `self._path_lst[el.idx].replace(el.token, el.value)`
for each, and return the reassembled URI.  The returned pair is the string
result together with the mutated instance. -/
def S3DatePath.resolve_dateid (dp : S3DatePath) (dt : Int) : String × S3DatePath :=
  let resolved_lst : List S3DateValue := dp.params.map (fun param => S3DatePath.extract_value param dt)
  let newLst : List String :=
    resolved_lst.foldl
      (fun lst el => lst.set el.idx (pyReplace (lst.getD el.idx "") el.token el.value))
      dp.path_lst
  (dp.proto ++ "://" ++ joinSlash [dp.bucket, joinSlash newLst], { dp with path_lst := newLst })

example :
    (S3DatePath.init "s3://test-bucket/path/p2/\x7bDATEID\x7d").toOption.map
      (fun dp => (dp.resolve_dateid (mkDT 2017 11 28 23 55 59)).1)
    = some "s3://test-bucket/path/p2/2017-11-28" := by rfl

example :
    (S3DatePath.init "s3://test-bucket/path/p2/some_\x7bDATETIMEID-1\x7d_postfix").toOption.map
      (fun dp => (dp.resolve_dateid (mkDT 2017 11 28 23 55 59)).1)
    = some "s3://test-bucket/path/p2/some_2017-11-27_23-55-59_postfix" := by rfl

example :
    (S3DatePath.init "s3://test-bucket//path//////p2").toOption.map
      (fun dp => (dp.resolve_dateid (mkDT 2017 11 28 23 55 59)).1)
    = some "s3://test-bucket/path/p2" := by rfl

example :
    (S3DatePath.init "s3://test-bucket/path/p2").toOption.map
      (fun dp => (dp.resolve_dateid (mkDT 2017 11 28 23 55 59)).1)
    = some "s3://test-bucket/path/p2" := by rfl

example : S3DatePath.init "s3://b/\x7bDATEIDxyz\x7d" = Except.error "AttributeError" := by rfl

example : S3Path.init "s3://test-bucket/path/p2/" = Except.ok ⟨"s3", "test-bucket", "path/p2/"⟩ := by rfl
example : S3Path.init "s3://test-bucket//path//////p2" = Except.ok ⟨"s3", "test-bucket", "/path/p2"⟩ := by rfl
example : S3Path.is_valid "s4://bucket/path" = false := by rfl
example : S3Path.init "s3n://b/x" = Except.ok ⟨"s3", "b", "x"⟩ := by rfl
example : S3Path.init "s3://b" = Except.ok ⟨"s3", "b", ""⟩ := by rfl
example : (S3Path.str ⟨"s3", "b", ""⟩) = "s3://b/" := by rfl

/-! ## Claims -/

/-- Claim C7 (confirmed).  An input that does not match the
`scheme://bucket[/path]` grammar with an accepted scheme makes the
constructor fail with the `RuntimeError` carrying the offending input
(rather than escaping with an unhandled exception), and `is_valid` — a
purely syntactic check on the same regular expression, which builds no
`S3Path` — returns `false` for exactly the inputs on which construction
fails. -/
theorem C7_malformed_uri (uri : String) :
    (S3Path.is_valid uri = false ↔
      S3Path.init uri = Except.error ("Invliad S3 URI: %" ++ uri))
    ∧ (S3Path.is_valid uri = true ↔ ∃ p, S3Path.init uri = Except.ok p) := by
  unfold S3Path.is_valid S3Path.init
  cases h : s3PathMatch uri with
  | none => simp
  | some g => cases g with | mk b r => simp

/-- Witness for C7 at the spec's concrete invalid input `s4://bucket/path`. -/
theorem C7_malformed_uri_witness :
    S3Path.init "s4://bucket/path" = Except.error ("Invliad S3 URI: %" ++ "s4://bucket/path") :=
  (C7_malformed_uri "s4://bucket/path").1.mp (by rfl)

/-- Claim C4, counterexample.  The claim asserts that for every
prefix-shaped input — trailing separator **or empty path** — `is_file()`
returns false; but `s3://b` parses to the empty path and
`not "".endswith("/")` is `True`, so the code returns true there. -/
theorem C4_is_file_counterexample :
    (S3Path.init "s3://b").toOption.map (fun p => (p.path, p.is_file)) = some ("", true)
    ∧ ¬ (S3Path.init "s3://b").toOption.map (fun p => (p.path, p.is_file)) = some ("", false) := by
  constructor
  · rfl
  · decide

/-- Claim C4 as amended: `is_file()` is true iff the normalized path does
not end with the separator character — so every trailing-separator path
gives false, but the **empty** path gives true (an empty path is classified
as object-shaped, in line with the class docstring, which only promises
prefix treatment for paths ending in `/`).  The call is a total Lean
function of the immutable `path` field: pure, deterministic, no I/O, never
failing. -/
theorem C4_is_file_amended (p : S3Path) :
    (p.is_file = true ↔ List.isSuffixOf "/".data p.path.data = false)
    ∧ (p.path = "" → p.is_file = true) := by
  refine ⟨?_, ?_⟩
  · unfold S3Path.is_file
    cases List.isSuffixOf "/".data p.path.data <;> simp
  · intro h
    unfold S3Path.is_file
    rw [h]
    decide

/-- Witness for C4: the amended claim applied to the parsed form of
`s3://b` (empty path, classified as a file). -/
theorem C4_is_file_amended_witness :
    S3Path.is_file ⟨"s3", "b", ""⟩ = true :=
  (C4_is_file_amended ⟨"s3", "b", ""⟩).2 rfl

/-- Claim C9 (code bug).  `s3://b/\x7bDATEIDxyz\x7d` is a valid URI and its only
segment has no `PARAM_PATTERN` match, so per the claim it should simply
contribute no placeholder; but the heuristic guard
`("\x7bDATEID" in val or "\x7bDATETIMEID" in val) and "\x7d" in val` passes, the
regex match returns `None`, and `None.groups()` raises an `AttributeError`
out of the constructor.  (The code itself flags the guard with
`TODO: this heuristic might not work for complicated string`.) -/
theorem C9_heuristic_crash :
    S3Path.is_valid "s3://b/\x7bDATEIDxyz\x7d" = true
    ∧ S3DatePath.init "s3://b/\x7bDATEIDxyz\x7d" = Except.error "AttributeError" := by
  constructor <;> rfl

/-- Claim C1, counterexample.  `resolve_dateid` writes the substituted
segments back into `_path_lst`: after resolving `s3://b/\x7bDATEID\x7d` at
2017-11-28 the stored segment list is `["2017-11-28"]`, no longer
`["\x7bDATEID\x7d"]`, and a second resolve at 2017-11-29 returns the first
call's output instead of the fresh-instance result `s3://b/2017-11-29`. -/
theorem C1_resolve_mutates_counterexample :
    (S3DatePath.init "s3://b/\x7bDATEID\x7d").toOption.map (fun dp => dp.path_lst)
      = some ["\x7bDATEID\x7d"]
    ∧ (S3DatePath.init "s3://b/\x7bDATEID\x7d").toOption.map (fun dp =>
        let r1 := dp.resolve_dateid (mkDT 2017 11 28 0 0 0)
        let r2 := r1.2.resolve_dateid (mkDT 2017 11 29 0 0 0)
        let fresh := dp.resolve_dateid (mkDT 2017 11 29 0 0 0)
        (r1.2.path_lst, r2.1, fresh.1))
      = some (["2017-11-28"], "s3://b/2017-11-28", "s3://b/2017-11-29")
    ∧ (["2017-11-28"] : List String) ≠ ["\x7bDATEID\x7d"]
    ∧ ("s3://b/2017-11-28" : String) ≠ "s3://b/2017-11-29" := by
  refine ⟨by rfl, by rfl, by decide, by decide⟩

/-- Claim C1 as amended: `resolve_dateid` never touches the placeholder
list `_params`, but it does overwrite the stored segments with the
substituted ones; an instance whose path has **zero** placeholders is left
completely unchanged and may be resolved repeatedly, each call independent,
while an instance with placeholders is mutated by the first resolve (and a
later call at a different timestamp can return the first call's output, as
the counterexample shows). -/
theorem C1_resolve_amended (dp : S3DatePath) (dt dt2 : Int) :
    ((dp.resolve_dateid dt).2.params = dp.params)
    ∧ (dp.params = [] →
        (dp.resolve_dateid dt).2 = dp
        ∧ ((dp.resolve_dateid dt).2.resolve_dateid dt2).1 = (dp.resolve_dateid dt2).1) := by
  refine ⟨rfl, ?_⟩
  intro h
  have e : (dp.resolve_dateid dt).2 = dp := by
    cases dp with
    | mk proto bucket path path_lst params =>
      cases h
      simp [S3DatePath.resolve_dateid]
  exact ⟨e, by rw [e]⟩

/-- Witness for C1: a concrete placeholder-free instance is returned
unchanged by `resolve_dateid`. -/
theorem C1_resolve_amended_witness :
    (S3DatePath.resolve_dateid ⟨"s3", "b", "p2", ["p2"], []⟩ 0).2
      = ⟨"s3", "b", "p2", ["p2"], []⟩ :=
  ((C1_resolve_amended ⟨"s3", "b", "p2", ["p2"], []⟩ 0 86400).2 rfl).1

/-- Claim C3, counterexample.  A path with no segments at all reassembles
with a trailing slash — `"/".join([bucket, ""])` is `"b/"` — so `s3://b`
resolves to `s3://b/`, not to `s3://b` as the claim requires; and a
trailing separator is *not* preserved: `s3://b/a/` resolves to
`s3://b/a`. -/
theorem C3_zero_placeholder_counterexample :
    (S3DatePath.init "s3://b").toOption.map (fun dp => (dp.resolve_dateid 0).1)
      = some "s3://b/"
    ∧ ("s3://b/" : String) ≠ "s3://b"
    ∧ (S3DatePath.init "s3://b/a/").toOption.map (fun dp => (dp.resolve_dateid 0).1)
      = some "s3://b/a"
    ∧ ("s3://b/a" : String) ≠ "s3://b/a/" := by
  refine ⟨by rfl, by decide, by rfl, by decide⟩

/-- Claim C3 as amended: on a path with zero placeholders `resolve_dateid`
leaves the instance unchanged and returns
`proto://` + `"/".join([bucket, "/".join(segments)])` — the URI rebuilt
from the non-whitespace segments.  This equals the constructed URI exactly
when the normalized path is the plain slash-join of those segments; a path
with no segments reassembles to `scheme://bucket/` **with** a trailing
slash, and leading, trailing or duplicate separators of the original path
are not reproduced. -/
theorem C3_zero_placeholder_amended (dp : S3DatePath) (dt : Int) (h : dp.params = []) :
    dp.resolve_dateid dt
      = (dp.proto ++ "://" ++ joinSlash [dp.bucket, joinSlash dp.path_lst], dp) := by
  cases dp with
  | mk proto bucket path path_lst params =>
    cases h
    simp [S3DatePath.resolve_dateid]

/-- Witness for C3: the amended claim at a concrete placeholder-free
instance, matching the repository's own test
(`s3://test-bucket/path/p2` resolves to itself). -/
theorem C3_zero_placeholder_amended_witness :
    S3DatePath.resolve_dateid ⟨"s3", "test-bucket", "path/p2", ["path", "p2"], []⟩ 0
      = ("s3" ++ "://" ++ joinSlash ["test-bucket", joinSlash ["path", "p2"]],
         ⟨"s3", "test-bucket", "path/p2", ["path", "p2"], []⟩) :=
  C3_zero_placeholder_amended ⟨"s3", "test-bucket", "path/p2", ["path", "p2"], []⟩ 0 rfl

/-- Claim C2 (confirmed).  The effective timestamp is `asOf` unchanged for
`NONE`, `asOf − offsetDays·86400 s` for `MINUS` and `asOf + offsetDays·86400 s`
for `PLUS` (`timedelta(days=v)` is exactly `v·24 h`); the offset preserves
the time of day (the second-of-day is unchanged, i.e. no midnight
truncation, and the civil-calendar formatting crosses month and year
boundaries); `DATEID` formats as `YYYY-MM-DD` and `DATETIMEID` as
`YYYY-MM-DD_HH-MM-SS`.  Concretely, `some_\x7bDATETIMEID-1\x7d` at
2017-11-28T23:55:59 resolves to `some_2017-11-27_23-55-59`, and
`\x7bDATEID+1\x7d` at 2017-12-31T10:00:00 crosses the year boundary to
`2018-01-01`. -/
theorem C2_effective_timestamp (param : S3DateParam) (dt : Int) :
    ((S3DatePath.extract_value param dt).value =
      (match param.dt with
       | DateType.DATEID => strftimeDate
       | DateType.DATETIMEID => strftimeDateTime)
      (match param.sign with
       | DateOp.NONE => dt
       | DateOp.MINUS => dt - 86400 * (param.value : Int)
       | DateOp.PLUS => dt + 86400 * (param.value : Int)))
    ∧ (∀ (op : DateOp) (v : Nat), (S3DatePath.compute_offset dt op v) % 86400 = dt % 86400)
    ∧ ((S3DatePath.init "s3://test-bucket/path/p2/some_\x7bDATETIMEID-1\x7d").toOption.map
         (fun dp => (dp.resolve_dateid (mkDT 2017 11 28 23 55 59)).1)
       = some "s3://test-bucket/path/p2/some_2017-11-27_23-55-59")
    ∧ ((S3DatePath.init "s3://b/\x7bDATEID+1\x7d").toOption.map
         (fun dp => (dp.resolve_dateid (mkDT 2017 12 31 10 0 0)).1)
       = some "s3://b/2018-01-01") := by
  refine ⟨?_, ?_, by rfl, by rfl⟩
  · obtain ⟨idx, pdt, sign, v⟩ := param
    cases pdt <;> cases sign <;> rfl
  · intro op v
    cases op <;> simp [S3DatePath.compute_offset] <;> omega

/-- Claim C6, counterexample.  `\x7bDATEID-01\x7d` is a valid offset spelling of
the grammar (`\d+` accepts leading zeros) and parses to offset 1, but the
token is reconstructed from the parsed integer as `\x7bDATEID-1\x7d`, which does
not occur in the segment; the replacement therefore misses and the
placeholder token remains in the resolved output. -/
theorem C6_token_counterexample :
    (S3DatePath.init "s3://b/\x7bDATEID-01\x7d").toOption.map (fun dp => dp.params)
      = some [⟨0, DateType.DATEID, DateOp.MINUS, 1⟩]
    ∧ (S3DatePath.init "s3://b/\x7bDATEID-01\x7d").toOption.map
        (fun dp => (dp.resolve_dateid (mkDT 2017 11 28 23 55 59)).1)
      = some "s3://b/\x7bDATEID-01\x7d"
    ∧ containsL "\x7bDATEID-01\x7d".data "s3://b/\x7bDATEID-01\x7d".data = true := by
  refine ⟨by rfl, by rfl, by rfl⟩

/-- Claim C6 as amended: `resolve` reconstructs the token in *canonical*
spelling — `\x7bKIND\x7d`, `\x7bKIND+N\x7d` or `\x7bKIND-N\x7d` with `N` printed without
leading zeros — and replaces the occurrences of that canonical text in the
segment.  The canonical text parses back to exactly the placeholder's kind,
sign and offset (stated for offsets below 100), so for canonically spelled
tokens the substitution succeeds (concrete example included); for an
original spelling with leading zeros the reconstructed text differs from
the original token, which is left in the output (see the
counterexample). -/
theorem C6_token_amended :
    (∀ (k : DateType) (op : DateOp) (v : Nat), v < 100 → (op = DateOp.NONE → v = 0) →
      findToken (S3DatePath.reconstruct_match_token ⟨0, k, op, v⟩).data = some (k, op, v))
    ∧ ((S3DatePath.init "s3://b/x_\x7bDATEID-1\x7d").toOption.map
         (fun dp => (dp.resolve_dateid (mkDT 2017 11 28 23 55 59)).1)
       = some "s3://b/x_2017-11-27")
    ∧ S3DatePath.reconstruct_match_token ⟨0, DateType.DATEID, DateOp.MINUS, 1⟩ = "\x7bDATEID-1\x7d"
    ∧ ("\x7bDATEID-1\x7d" : String) ≠ "\x7bDATEID-01\x7d" := by
  refine ⟨?_, by rfl, by rfl, by decide⟩
  intro k op
  cases k <;> cases op <;> decide

/-- Witness for C6: the canonical token of a two-digit-free offset
round-trips through the parser. -/
theorem C6_token_amended_witness :
    findToken (S3DatePath.reconstruct_match_token ⟨0, DateType.DATEID, DateOp.MINUS, 7⟩).data
      = some (DateType.DATEID, DateOp.MINUS, 7) :=
  C6_token_amended.1 DateType.DATEID DateOp.MINUS 7 (by decide) (by decide)

/-- Modelled from the spec's words for `copyTo` (claim C5): the destination
key is "the source key with the destination's prefix substituted for the
source's prefix in the matched key" — the leading source prefix of the
listed key is replaced by the destination prefix. -/
def specSubstKey (srcPfx dstPfx key : String) : String :=
  dstPfx ++ ⟨key.data.drop srcPfx.data.length⟩

/-- The copy loop of `S3Path.cp` skips exactly the objects whose key ends
with an excluded postfix and emits one copy per remaining listed object, in
listing order. -/
theorem cpLoop_filter_map (src dest_path : S3Path) (excludes : List String)
    (objs : List S3Object) :
    S3Path.cpLoop src dest_path excludes objs
      = (objs.filter
          (fun obj => !(excludes.any (fun excluded => List.isSuffixOf excluded.data obj.key.data)))).map
          (mkCopyOp src dest_path) := by
  induction objs with
  | nil => rfl
  | cons obj rest ih =>
    by_cases h : excludes.any (fun excluded => List.isSuffixOf excluded.data obj.key.data) = true
    · simp [S3Path.cpLoop, h, ih]
    · simp only [Bool.not_eq_true] at h
      simp [S3Path.cpLoop, h, ih]

/-- Claim C5, counterexample.  The code computes the destination key as
`dest_path.path + key.replace(self.path, "")`, which removes **every**
occurrence of the source prefix from the key, not only the leading one:
for source prefix `a`, destination prefix `b` and listed key `a/a`, the
issued copy has destination key `b/`, while substituting the destination's
prefix for the source's prefix would give `b/a`. -/
theorem C5_copy_key_counterexample :
    S3Path.init "s3://B/a" = Except.ok ⟨"s3", "B", "a"⟩
    ∧ S3Path.init "s3://B/b" = Except.ok ⟨"s3", "B", "b"⟩
    ∧ (S3Path.cp ⟨"s3", "B", "a"⟩ ⟨"s3", "B", "b"⟩ S3Path.cpDefaultExcludes
        [⟨"B", "a/a"⟩]).map (fun op => op.dstKey) = ["b/"]
    ∧ specSubstKey "a" "b" "a/a" = "b/a"
    ∧ ("b/" : String) ≠ "b/a" := by
  refine ⟨by rfl, by rfl, by rfl, by rfl, by decide⟩

/-- Claim C5 as amended: with the default exclude set `["_SUCCESS"]`, every
listed object whose key ends with an excluded postfix is skipped, and every
other listed object produces exactly one server-side copy, in listing
order, whose destination key is the destination's prefix concatenated with
the source key with **all** occurrences of the source's prefix removed
(this equals substituting the destination's prefix for the source's prefix
whenever the source prefix occurs in the key only as its leading prefix);
in particular N objects under a prefix plus one `_SUCCESS` object transfer
exactly N copies. -/
theorem C5_copyTo_amended (src dest_path : S3Path) (excludes : List String)
    (world : List S3Object) :
    (S3Path.cp src dest_path excludes world
      = ((src.ls world).filter
          (fun obj => !(excludes.any (fun excluded => List.isSuffixOf excluded.data obj.key.data)))).map
          (mkCopyOp src dest_path))
    ∧ (∀ op ∈ S3Path.cp src dest_path excludes world,
        op.dstKey = dest_path.path ++ pyReplace op.srcKey src.path "")
    ∧ ((S3Path.cp ⟨"s3", "B", "p/"⟩ ⟨"s3", "B", "q/"⟩ S3Path.cpDefaultExcludes
          [⟨"B", "p/k1"⟩, ⟨"B", "p/k2"⟩, ⟨"B", "p/_SUCCESS"⟩]).map (fun op => (op.srcKey, op.dstKey))
        = [("p/k1", "q/k1"), ("p/k2", "q/k2")]) := by
  refine ⟨cpLoop_filter_map src dest_path excludes (src.ls world), ?_, by rfl⟩
  intro op hop
  have hop2 := hop
  rw [show S3Path.cp src dest_path excludes world
        = _ from cpLoop_filter_map src dest_path excludes (src.ls world)] at hop2
  obtain ⟨obj, hmem, rfl⟩ := List.mem_map.mp hop2
  rfl

/-- Witness for C5: the copy issued for the single listed object under
prefix `p/` has the stated destination key. -/
theorem C5_copyTo_amended_witness :
    (⟨"B", "p/k1", "B", "q/k1"⟩ : CopyOp).dstKey
      = (⟨"s3", "B", "q/"⟩ : S3Path).path
        ++ pyReplace (⟨"B", "p/k1", "B", "q/k1"⟩ : CopyOp).srcKey (⟨"s3", "B", "p/"⟩ : S3Path).path "" :=
  (C5_copyTo_amended ⟨"s3", "B", "p/"⟩ ⟨"s3", "B", "q/"⟩ S3Path.cpDefaultExcludes
      [⟨"B", "p/k1"⟩]).2.1 ⟨"B", "p/k1", "B", "q/k1"⟩ (by decide)

/-- A successful parse means the URI is syntactically valid. -/
theorem init_ok_is_valid {uri : String} {p : S3Path} (h : S3Path.init uri = Except.ok p) :
    S3Path.is_valid uri = true := by
  unfold S3Path.init at h
  unfold S3Path.is_valid
  cases hm : s3PathMatch uri with
  | none => rw [hm] at h; cases h
  | some g => rfl

/-- Claim C10 (confirmed).  When the two URIs parse to equal `S3Path`s
(same bucket and normalized path; the schemes may differ, and `__eq__`
ignores the scheme anyway), `S3BotoClient.cp` takes the `else` branch of
`if s3_src_path != s3_dst_path` and returns without issuing any copy call,
leaving the storage world untouched. -/
theorem C10_client_cp_noop (u1 u2 : String) (p1 p2 : S3Path) (world : List S3Object)
    (h1 : S3Path.init u1 = Except.ok p1) (h2 : S3Path.init u2 = Except.ok p2)
    (heq : S3Path.eq p1 p2 = true) :
    S3BotoClient.cp u1 u2 world = Except.ok [] := by
  unfold S3BotoClient.cp
  rw [init_ok_is_valid h1, init_ok_is_valid h2, h1, h2]
  simp [heq]

/-- Witness for C10: copying `s3://b/p` onto `s3n://b/p` (different
schemes, same bucket and path) over a non-empty world issues no copies. -/
theorem C10_client_cp_noop_witness :
    S3BotoClient.cp "s3://b/p" "s3n://b/p" [⟨"b", "p/x"⟩] = Except.ok [] :=
  C10_client_cp_noop "s3://b/p" "s3n://b/p" ⟨"s3", "b", "p"⟩ ⟨"s3", "b", "p"⟩ [⟨"b", "p/x"⟩]
    (by rfl) (by rfl) (by rfl)

/-! ### Lemmas about normalization and re-parsing (claim C8) -/

theorem hasDD_cons (c : Char) (l : List Char) :
    hasDD (c :: l) = ((c == '/') && headSlash l || hasDD l) := by
  cases l with
  | nil => simp [hasDD, headSlash]
  | cons b t => rfl

theorem collapse_true_head (cs : List Char) : headSlash (collapseAux true cs) = false := by
  induction cs with
  | nil => rfl
  | cons c t ih =>
    cases h : (c == '/') with
    | true => simpa [collapseAux, h] using ih
    | false => simp [collapseAux, h, headSlash]

/-- Normalization never leaves two consecutive slashes. -/
theorem collapse_hasDD (prev : Bool) (cs : List Char) :
    hasDD (collapseAux prev cs) = false := by
  induction cs generalizing prev with
  | nil => rfl
  | cons c t ih =>
    cases h : (c == '/') with
    | true =>
      cases prev with
      | true => simpa [collapseAux, h] using ih true
      | false => simp [collapseAux, h, hasDD_cons, collapse_true_head, ih true]
    | false =>
      cases prev with
      | true => simp [collapseAux, h, hasDD_cons, ih false]
      | false => simp [collapseAux, h, hasDD_cons, ih false]

/-- Normalization is the identity on a list without double slashes. -/
theorem collapse_fixed (cs : List Char) (h : hasDD cs = false) :
    collapseAux false cs = cs ∧ (headSlash cs = false → collapseAux true cs = cs) := by
  induction cs with
  | nil => exact ⟨rfl, fun _ => rfl⟩
  | cons c t ih =>
    cases hc : (c == '/') with
    | false =>
      have h1 : hasDD t = false := by
        rw [hasDD_cons, hc] at h
        simpa using h
      obtain ⟨e1, _⟩ := ih h1
      exact ⟨by simp [collapseAux, hc, e1], fun _ => by simp [collapseAux, hc, e1]⟩
    | true =>
      have hh : headSlash t = false ∧ hasDD t = false := by
        rw [hasDD_cons, hc] at h
        cases hht : headSlash t <;> cases hdd : hasDD t <;> rw [hht, hdd] at h <;> simp_all
      obtain ⟨hht, hdd⟩ := hh
      have e2 := (ih hdd).2 hht
      have hc' : c = '/' := by
        have := beq_iff_eq.mp hc
        exact this
      constructor
      · subst hc'
        simp [collapseAux, e2]
      · intro hhead
        rw [show headSlash (c :: t) = (c == '/') from rfl, hc] at hhead
        cases hhead

/-- Every character of the normalized list occurs in the input. -/
theorem mem_collapse {c : Char} (prev : Bool) (cs : List Char)
    (h : c ∈ collapseAux prev cs) : c ∈ cs := by
  induction cs generalizing prev with
  | nil => simp [collapseAux] at h
  | cons a t ih =>
    cases ha : (a == '/') with
    | true =>
      have ha' : a = '/' := beq_iff_eq.mp ha
      cases prev with
      | true =>
        rw [show collapseAux true (a :: t) = collapseAux true t by simp [collapseAux, ha]] at h
        exact List.mem_cons_of_mem a (ih true h)
      | false =>
        rw [show collapseAux false (a :: t) = '/' :: collapseAux true t by
              simp [collapseAux, ha]] at h
        rcases List.mem_cons.mp h with h1 | h2
        · subst ha'
          rw [h1]
          exact List.mem_cons_self '/' t
        · exact List.mem_cons_of_mem a (ih true h2)
    | false =>
      rw [show collapseAux prev (a :: t) = a :: collapseAux false t by
            cases prev <;> simp [collapseAux, ha]] at h
      rcases List.mem_cons.mp h with h1 | h2
      · rw [h1]
        exact List.mem_cons_self a t
      · exact List.mem_cons_of_mem a (ih false h2)

theorem takeWhile_all {p : Char → Bool} (l : List Char) (h : ∀ c ∈ l, p c = true) :
    l.takeWhile p = l := by
  induction l with
  | nil => rfl
  | cons a t ih =>
    rw [List.takeWhile_cons_of_pos (h a (List.mem_cons_self a t)),
        ih (fun c hc => h c (List.mem_cons_of_mem a hc))]

theorem takeWhile_append_stop {p : Char → Bool} (l1 : List Char) (x : Char) (l2 : List Char)
    (h1 : ∀ c ∈ l1, p c = true) (hx : p x = false) :
    (l1 ++ x :: l2).takeWhile p = l1 := by
  induction l1 with
  | nil => simp [hx]
  | cons a t ih =>
    rw [List.cons_append, List.takeWhile_cons_of_pos (h1 a (List.mem_cons_self a t)),
        ih (fun c hc => h1 c (List.mem_cons_of_mem a hc))]

theorem dropPfx_append (l r : List Char) : dropPfx l (l ++ r) = some r := by
  induction l with
  | nil => rfl
  | cons a t ih => simp [dropPfx, ih]

/-- Reduce `s3PathMatchL` once the scheme has been stripped. -/
theorem s3PathMatchL_scheme_some {cs rest : List Char}
    (h : schemeRestL cs = some rest) : s3PathMatchL cs = bucketSplit rest := by
  unfold s3PathMatchL
  rw [h]

/-- Reduce `s3PathMatchL` when the scheme does not match. -/
theorem s3PathMatchL_scheme_none {cs : List Char}
    (h : schemeRestL cs = none) : s3PathMatchL cs = none := by
  unfold s3PathMatchL
  rw [h]

/-- Reduce `bucketSplit` when the bucket run is non-empty. -/
theorem bucketSplit_cons {rest : List Char} {b0 : Char} {bs : List Char}
    (htw : rest.takeWhile (fun c => !(c == '/')) = b0 :: bs) :
    bucketSplit rest
      = some (⟨b0 :: bs⟩,
          ⟨(slashDrop (rest.drop (b0 :: bs).length)).takeWhile (fun c => !(c == '\n'))⟩) := by
  unfold bucketSplit
  rw [htw]

/-- Reduce `bucketSplit` when the bucket run is empty. -/
theorem bucketSplit_nil {rest : List Char}
    (htw : rest.takeWhile (fun c => !(c == '/')) = []) :
    bucketSplit rest = none := by
  unfold bucketSplit
  rw [htw]

/-- Shape of a successful regex match: the bucket group is a non-empty run
of non-slash characters and the path group contains no newline. -/
theorem s3PathMatchL_inv {cs : List Char} {b pa : String}
    (h : s3PathMatchL cs = some (b, pa)) :
    b.data ≠ []
    ∧ (∀ c ∈ b.data, (c == '/') = false)
    ∧ (∀ c ∈ pa.data, (c == '\n') = false) := by
  cases hs : schemeRestL cs with
  | none => rw [s3PathMatchL_scheme_none hs] at h; cases h
  | some rest =>
    rw [s3PathMatchL_scheme_some hs] at h
    cases htw : rest.takeWhile (fun c => !(c == '/')) with
    | nil => rw [bucketSplit_nil htw] at h; cases h
    | cons b0 bs =>
      rw [bucketSplit_cons htw] at h
      injection h with h
      injection h with hb hpa
      subst hb
      subst hpa
      refine ⟨by simp, ?_, ?_⟩
      · intro c hc
        have hc2 : c ∈ rest.takeWhile (fun c => !(c == '/')) := by
          rw [htw]
          exact hc
        simpa using List.mem_takeWhile_imp hc2
      · intro c hc
        have hc2 : c ∈ (slashDrop (rest.drop (b0 :: bs).length)).takeWhile
            (fun c => !(c == '\n')) := hc
        simpa using List.mem_takeWhile_imp hc2

/-- Invariants of a successfully constructed `S3Path`: the scheme field is
the literal `s3`, the bucket is a non-empty slash-free string, and the
normalized path has no newline and no run of two or more slashes. -/
theorem init_ok_inv {uri : String} {p : S3Path} (h : S3Path.init uri = Except.ok p) :
    p.proto = "s3"
    ∧ p.bucket.data ≠ []
    ∧ (∀ c ∈ p.bucket.data, (c == '/') = false)
    ∧ (∀ c ∈ p.path.data, (c == '\n') = false)
    ∧ hasDD p.path.data = false := by
  unfold S3Path.init s3PathMatch at h
  cases hm : s3PathMatchL uri.data with
  | none => rw [hm] at h; cases h
  | some g =>
    rw [hm] at h
    cases g with
    | mk b pa =>
      obtain ⟨hb, hbs, hnl⟩ := s3PathMatchL_inv hm
      injection h with h
      subst h
      refine ⟨rfl, hb, hbs, ?_, ?_⟩
      · intro c hc
        exact hnl c (mem_collapse false pa.data hc)
      · exact collapse_hasDD false pa.data

/-- Re-parsing `s3://` + bucket + `/` + path recovers the bucket and path
groups exactly, provided the bucket is a non-empty slash-free run and the
path contains no newline. -/
theorem s3PathMatchL_reparse (b pa : List Char) (hb : b ≠ [])
    (hbs : ∀ c ∈ b, (c == '/') = false) (hnl : ∀ c ∈ pa, (c == '\n') = false) :
    s3PathMatchL ("s3://".data ++ (b ++ '/' :: pa)) = some (⟨b⟩, ⟨pa⟩) := by
  have hscheme : schemeRestL ("s3://".data ++ (b ++ '/' :: pa)) = some (b ++ '/' :: pa) := by
    unfold schemeRestL
    rw [dropPfx_append]
  rw [s3PathMatchL_scheme_some hscheme]
  cases hbcons : b with
  | nil => exact absurd hbcons hb
  | cons b0 bs =>
    subst hbcons
    have htw : (b0 :: bs ++ '/' :: pa).takeWhile (fun c => !(c == '/')) = b0 :: bs :=
      takeWhile_append_stop (b0 :: bs) '/' pa (fun c hc => by simp [hbs c hc]) (by simp)
    rw [bucketSplit_cons htw]
    have hdrop : (b0 :: bs ++ '/' :: pa).drop (b0 :: bs).length = '/' :: pa :=
      List.drop_left (b0 :: bs) ('/' :: pa)
    rw [hdrop]
    rw [show slashDrop ('/' :: pa) = pa from rfl]
    rw [takeWhile_all pa (fun c hc => by simp [hnl c hc])]

/-- Claim C8 (confirmed).  The parsed path of every valid URI contains no
run of two or more consecutive separators, and parsing is idempotent:
re-parsing `str(p)` of an already-parsed `S3Path` succeeds and yields a
path that `__eq__` considers equal (same bucket and path; the scheme field
is always the canonical `s3`). -/
theorem C8_normalize_idempotent (uri : String) (p : S3Path)
    (h : S3Path.init uri = Except.ok p) :
    hasDD p.path.data = false
    ∧ ∃ p2, S3Path.init p.str = Except.ok p2 ∧ S3Path.eq p2 p = true := by
  obtain ⟨hproto, hb, hbs, hnl, hdd⟩ := init_ok_inv h
  refine ⟨hdd, ⟨⟨"s3", p.bucket, p.path⟩, ?_, by simp [S3Path.eq]⟩⟩
  have hdata : (S3Path.str p).data = "s3://".data ++ (p.bucket.data ++ '/' :: p.path.data) := by
    unfold S3Path.str
    rw [hproto]
    show ("s3://".data ++ ((p.bucket.data ++ ['/']) ++ p.path.data)) = _
    simp [List.append_assoc]
  unfold S3Path.init s3PathMatch
  rw [hdata, s3PathMatchL_reparse p.bucket.data p.path.data hb hbs hnl]
  show Except.ok (⟨"s3", p.bucket, S3Path.normalize_path ⟨p.path.data⟩⟩ : S3Path) = _
  have hfix : S3Path.normalize_path ⟨p.path.data⟩ = p.path := by
    unfold S3Path.normalize_path
    show (⟨collapseAux false p.path.data⟩ : String) = p.path
    rw [(collapse_fixed p.path.data hdd).1]
  rw [hfix]

/-- Witness for C8 at the spec's concrete URI `s3://bucket/a//b///c`, whose
runs of separators collapse to the path `a/b/c`. -/
theorem C8_normalize_idempotent_witness :
    hasDD (S3Path.path ⟨"s3", "bucket", "a/b/c"⟩).data = false
    ∧ ∃ p2, S3Path.init (S3Path.str ⟨"s3", "bucket", "a/b/c"⟩) = Except.ok p2
        ∧ S3Path.eq p2 ⟨"s3", "bucket", "a/b/c"⟩ = true :=
  C8_normalize_idempotent "s3://bucket/a//b///c" ⟨"s3", "bucket", "a/b/c"⟩ (by rfl)
